import Mathlib

/-!
Verification of the PBM synthetic-data generators (IgniteVSPostgres/database/scripts).

Shallow embedding: each Python function the claims depend on is translated into a
Lean definition over `ℚ` (for `Decimal` money), `ℕ`/`ℤ` (for Python ints),
`List`/`Finset` (for lists and sets), and explicit draw parameters standing for
the values returned by the global `random` generator.  Fallible I/O paths are
modelled with `Option`/`Except`.
-/

/-- Floor of a rational as an integer. -/
def qfloor (q : ℚ) : ℤ := ⌊q⌋

/-- Banker's rounding (round half to even) of a rational to an integer, the
default rounding of Python's `decimal` module used by `round(Decimal, 2)`. -/
def roundHalfEven (x : ℚ) : ℤ :=
  let n := qfloor x
  let f := x - (n : ℚ)
  if f < 1/2 then n
  else if 1/2 < f then n + 1
  else if n % 2 = 0 then n else n + 1

/-- Rounding of a monetary rational to 2 decimal places, as Python's
`round(Decimal(x), 2)` does (half-even). -/
def round2 (q : ℚ) : ℚ := ((roundHalfEven (q * 100) : ℤ) : ℚ) / 100

/-- Draw values consumed by `ClaimLineGenerator.calculate_line_pricing`
(generate_claim_lines.py lines 141-204).  Each field stands for one call into
the global `random` generator on the branch that uses it. -/
structure PricingDraws where
  /-- value of `random.uniform(0.80, 0.95)` used for the allowed amount -/
  uAllowed : ℚ
  /-- value of the `random.uniform` copay draw on the tier-1/2/3 branch -/
  uCopay : ℚ
  /-- result of `random.random() < 0.10` deciding whether a deductible applies -/
  hasDeductible : Bool
  /-- value of `random.uniform(10.00, 50.00)` for the deductible -/
  uDeductible : ℚ
  /-- result of `random.random() < 0.05` deciding whether sales tax applies -/
  hasSalesTax : Bool
  deriving DecidableEq

/-- Output record of `calculate_line_pricing` (the dict built at lines 195-204
of generate_claim_lines.py). -/
structure Pricing where
  billed_amount : ℚ
  allowed_amount : ℚ
  paid_amount : ℚ
  patient_responsibility : ℚ
  copay_amount : ℚ
  coinsurance_amount : ℚ
  deductible_amount : ℚ
  sales_tax : ℚ
  deriving DecidableEq

/-- Billed amount: `ingredient_cost + dispensing_fee` (line 146). -/
def billedOf (ingredient_cost dispensing_fee : ℚ) : ℚ :=
  ingredient_cost + dispensing_fee

/-- Allowed amount: `round(billed_amount * uniform(0.80, 0.95), 2)`
(lines 149-150). -/
def allowedOf (ingredient_cost dispensing_fee : ℚ) (d : PricingDraws) : ℚ :=
  round2 (billedOf ingredient_cost dispensing_fee * d.uAllowed)

/-- The rounded (copay, coinsurance) pair chosen by the tier branch at lines
153-170 of generate_claim_lines.py.  Tiers 1-3 take a uniform copay and zero
coinsurance; tier 4 and the `else` branch (tier 5 and anything else) take zero
copay and 30% coinsurance of the allowed amount. -/
def copayCoinsOf (tier : ℕ) (allowed : ℚ) (d : PricingDraws) : ℚ × ℚ :=
  if tier = 1 then (round2 d.uCopay, round2 0)
  else if tier = 2 then (round2 d.uCopay, round2 0)
  else if tier = 3 then (round2 d.uCopay, round2 0)
  else if tier = 4 then (round2 0, round2 (allowed * (30/100)))
  else (round2 0, round2 (allowed * (30/100)))

/-- The rounded deductible chosen at lines 173-176. -/
def deductibleOf (d : PricingDraws) : ℚ :=
  if d.hasDeductible then round2 d.uDeductible else 0

/-- Patient responsibility before the clamp at line 181:
`copay + coinsurance + deductible` (line 178). -/
def unclampedPatient (tier : ℕ) (ingredient_cost dispensing_fee : ℚ)
    (d : PricingDraws) : ℚ :=
  let allowed := allowedOf ingredient_cost dispensing_fee d
  (copayCoinsOf tier allowed d).1 + (copayCoinsOf tier allowed d).2 +
    deductibleOf d

/-- Embedding of `ClaimLineGenerator.calculate_line_pricing`
(generate_claim_lines.py lines 141-204). -/
def calculate_line_pricing (tier : ℕ) (ingredient_cost dispensing_fee : ℚ)
    (d : PricingDraws) : Pricing :=
  let billed := billedOf ingredient_cost dispensing_fee
  let allowed := allowedOf ingredient_cost dispensing_fee d
  let cc := copayCoinsOf tier allowed d
  let deduct := deductibleOf d
  let patient0 := cc.1 + cc.2 + deduct
  let clamp := patient0 > allowed
  let patient := if clamp then allowed else patient0
  let copay := if clamp then allowed else cc.1
  let coins := if clamp then 0 else cc.2
  let deduct1 := if clamp then 0 else deduct
  let paid := allowed - patient
  let tax := if d.hasSalesTax then round2 (billed * (6/100)) else 0
  { billed_amount := billed
    allowed_amount := allowed
    paid_amount := paid
    patient_responsibility := patient
    copay_amount := copay
    coinsurance_amount := coins
    deductible_amount := deduct1
    sales_tax := tax }

/-- Line statuses drawn from `STATUS_DISTRIBUTION` in generate_claim_lines.py. -/
inductive LineStatus where
  | approved
  | denied
  | pending
  | adjusted
  deriving DecidableEq

/-- The status adjustment applied in `generate_claim_line` at lines 244-250 of
generate_claim_lines.py: a DENIED line has its `paid_amount` overwritten with
`Decimal(0.00)`; every other status keeps the pricing unchanged. -/
def apply_denial (status : LineStatus) (p : Pricing) : Pricing :=
  if status = LineStatus.denied then { p with paid_amount := 0 } else p

/-- helper: the pricing identity holds by construction inside
`calculate_line_pricing` itself. -/
theorem calculate_line_pricing_identity (tier : ℕ)
    (ingredient_cost dispensing_fee : ℚ) (d : PricingDraws) :
    (calculate_line_pricing tier ingredient_cost dispensing_fee d).paid_amount +
      (calculate_line_pricing tier ingredient_cost dispensing_fee d).patient_responsibility =
      (calculate_line_pricing tier ingredient_cost dispensing_fee d).allowed_amount := by
  simp only [calculate_line_pricing]
  ring

/-- Concrete pricing draws used for test evaluations: tier 1, allowed factor
0.90, copay draw 10.00, no deductible, no tax. -/
def testDraws : PricingDraws :=
  { uAllowed := 9/10, uCopay := 10, hasDeductible := false,
    uDeductible := 0, hasSalesTax := false }

/-- Counterexample to C1: a DENIED claim line (tier 1, ingredient cost 40.00,
dispensing fee 2.00, allowed factor 0.90, copay draw 10.00) has
`paid_amount = 0` after the overwrite at line 247 of generate_claim_lines.py,
so `paid_amount + patient_responsibility = 10.00 ≠ 37.80 = allowed_amount`:
the identity does not hold regardless of line status. -/
theorem C1_counterexample :
    (apply_denial LineStatus.denied
          (calculate_line_pricing 1 40 2 testDraws)).paid_amount +
        (apply_denial LineStatus.denied
          (calculate_line_pricing 1 40 2 testDraws)).patient_responsibility ≠
      (apply_denial LineStatus.denied
        (calculate_line_pricing 1 40 2 testDraws)).allowed_amount := by
  norm_num [apply_denial, calculate_line_pricing, allowedOf, billedOf,
    copayCoinsOf, deductibleOf, round2, roundHalfEven, qfloor, testDraws]

/-- Claim C1 (amended): for every claim line whose `line_status` is not
DENIED, `paid_amount + patient_responsibility = allowed_amount` exactly at
2-decimal fixed-point precision.  (For DENIED lines `paid_amount` is
overwritten with 0 while `patient_responsibility` and `allowed_amount` are
kept, so the identity fails there.) -/
theorem C1_pricing_identity_non_denied (tier : ℕ)
    (ingredient_cost dispensing_fee : ℚ) (d : PricingDraws)
    (status : LineStatus) (h : status ≠ LineStatus.denied) :
    (apply_denial status
          (calculate_line_pricing tier ingredient_cost dispensing_fee d)).paid_amount +
        (apply_denial status
          (calculate_line_pricing tier ingredient_cost dispensing_fee d)).patient_responsibility =
      (apply_denial status
        (calculate_line_pricing tier ingredient_cost dispensing_fee d)).allowed_amount := by
  rw [apply_denial, if_neg h]
  exact calculate_line_pricing_identity tier ingredient_cost dispensing_fee d

/-- Witness for C1: the amended identity instantiated at an APPROVED tier-1
line with concrete draws. -/
theorem C1_witness :
    LineStatus.approved ≠ LineStatus.denied ∧
      (apply_denial LineStatus.approved
            (calculate_line_pricing 1 40 2 testDraws)).paid_amount +
          (apply_denial LineStatus.approved
            (calculate_line_pricing 1 40 2 testDraws)).patient_responsibility =
        (apply_denial LineStatus.approved
          (calculate_line_pricing 1 40 2 testDraws)).allowed_amount :=
  ⟨by decide, C1_pricing_identity_non_denied 1 40 2 testDraws
    LineStatus.approved (by decide)⟩

/-- Claim C2: for every claim line produced by `calculate_line_pricing`,
`patient_responsibility ≤ allowed_amount` (hence `paid_amount ≥ 0`), and
whenever the unclamped `copay + coinsurance + deductible` exceeds
`allowed_amount`, the patient pays exactly the full allowed amount and the
coinsurance and deductible components are zeroed (lines 178-187 of
generate_claim_lines.py). -/
theorem C2_patient_responsibility_clamped (tier : ℕ)
    (ingredient_cost dispensing_fee : ℚ) (d : PricingDraws) :
    (calculate_line_pricing tier ingredient_cost dispensing_fee d).patient_responsibility ≤
        (calculate_line_pricing tier ingredient_cost dispensing_fee d).allowed_amount ∧
      0 ≤ (calculate_line_pricing tier ingredient_cost dispensing_fee d).paid_amount ∧
      (unclampedPatient tier ingredient_cost dispensing_fee d >
          (calculate_line_pricing tier ingredient_cost dispensing_fee d).allowed_amount →
        (calculate_line_pricing tier ingredient_cost dispensing_fee d).patient_responsibility =
            (calculate_line_pricing tier ingredient_cost dispensing_fee d).allowed_amount ∧
          (calculate_line_pricing tier ingredient_cost dispensing_fee d).coinsurance_amount = 0 ∧
          (calculate_line_pricing tier ingredient_cost dispensing_fee d).deductible_amount = 0) := by
  simp only [calculate_line_pricing, unclampedPatient, gt_iff_lt]
  split_ifs with h
  · exact ⟨le_refl _, by linarith, fun _ => ⟨rfl, rfl, rfl⟩⟩
  · exact ⟨not_lt.mp h, by linarith [not_lt.mp h], fun hc => absurd hc h⟩

/-- Draws that trigger the clamp branch: tier-3 copay draw 50.00 against a
small allowed amount. -/
def clampDraws : PricingDraws :=
  { uAllowed := 8/10, uCopay := 50, hasDeductible := false,
    uDeductible := 0, hasSalesTax := false }

/-- Witness for C2: at tier 3 with ingredient cost 10.00, dispensing fee 2.00
and copay draw 50.00 the unclamped patient responsibility (50.00) exceeds the
allowed amount (9.60), and the clamped output pays the full allowed amount
with coinsurance and deductible zeroed. -/
theorem C2_witness :
    unclampedPatient 3 10 2 clampDraws >
        (calculate_line_pricing 3 10 2 clampDraws).allowed_amount ∧
      ((calculate_line_pricing 3 10 2 clampDraws).patient_responsibility =
          (calculate_line_pricing 3 10 2 clampDraws).allowed_amount ∧
        (calculate_line_pricing 3 10 2 clampDraws).coinsurance_amount = 0 ∧
        (calculate_line_pricing 3 10 2 clampDraws).deductible_amount = 0) :=
  have h : unclampedPatient 3 10 2 clampDraws >
      (calculate_line_pricing 3 10 2 clampDraws).allowed_amount := by
    norm_num [unclampedPatient, calculate_line_pricing, allowedOf, billedOf,
      copayCoinsOf, deductibleOf, round2, roundHalfEven, qfloor, clampDraws]
  ⟨h, (C2_patient_responsibility_clamped 3 10 2 clampDraws).2.2 h⟩

/-- A drug row as read from us_pharmacy_drugs.csv by
generate_formularies_drugs.py: the fields the generator consults.  Boolean
columns hold the literal strings compared against `"true"` in the source. -/
structure Drug where
  ndc_code : String
  is_generic : String
  is_specialty : String
  is_brand : String
  drug_class : String
  dosage_form : String
  deriving DecidableEq

/-- A formulary row as read from us_pharmacy_formularies.csv: fields consulted
by `select_drugs_for_formulary` and `generate_formulary_drug_record`. -/
structure Formulary where
  formulary_code : String
  formulary_type : String
  market_segment : String
  tier_count : ℕ
  deriving DecidableEq

/-- Draw values consumed by `assign_tier` (generate_formularies_drugs.py lines
184-205): one `random.random()` draw on the specialty branch and one on the
brand branch. -/
structure TierDraws where
  uSpec : ℚ
  uBrand : ℚ
  deriving DecidableEq

/-- Embedding of `assign_tier(drug, formulary_tier_count)`
(generate_formularies_drugs.py lines 184-205). -/
def assign_tier (drug : Drug) (formulary_tier_count : ℕ) (td : TierDraws) : ℕ :=
  if drug.is_generic = "true" then 1
  else if drug.is_specialty = "true" then
    if 5 ≤ formulary_tier_count then
      if td.uSpec < 70/100 then 4 else 5
    else min 4 formulary_tier_count
  else if drug.is_brand = "true" then
    min (if td.uBrand < 60/100 then 2 else 3) formulary_tier_count
  else min 2 formulary_tier_count

/-- The tier-structure table of generate_formularies.py (lines 48-52): a
formulary's `tier_count` is drawn from these weighted keys, so 6-tier
formularies occur (weight 0.10). -/
def TIER_STRUCTURES : List (ℕ × ℚ) :=
  [(3, 15/100), (4, 35/100), (5, 40/100), (6, 10/100)]

/-- Modelled from the spec: the set of the two highest tiers available under a
parent tier capacity, i.e. `{capacity - 1, capacity}`.  This is the spec-side
reading of "the two highest tiers available under parent_tier_capacity",
stated for comparison against the source's `assign_tier`. -/
def specTwoHighestTiers (tier_capacity : ℕ) : Finset ℕ :=
  {tier_capacity - 1, tier_capacity}

/-- A concrete specialty-class drug used in evaluations. -/
def specialtyDrug : Drug :=
  { ndc_code := "11111-111-11", is_generic := "false", is_specialty := "true",
    is_brand := "false", drug_class := "CHEMOTHERAPY", dosage_form := "TABLET" }

/-- Counterexample to C7: 6-tier formularies exist (weight 0.10 in
generate_formularies.py), and for a specialty drug on a 6-tier formulary with
specialty draw 0.5 `assign_tier` returns tier 4, which is not one of the two
highest tiers (5 and 6) available under that capacity. -/
theorem C7_counterexample :
    (6, (10/100 : ℚ)) ∈ TIER_STRUCTURES ∧
      assign_tier specialtyDrug 6 ⟨1/2, 0⟩ = 4 ∧
      4 ∉ specTwoHighestTiers 6 := by
  refine ⟨by simp [TIER_STRUCTURES], ?_, by decide⟩
  norm_num [assign_tier, specialtyDrug]
  decide

/-- Claim C7 (amended): `assign_tier` sends generic drugs to tier 1
unconditionally (hence with probability ≥ 0.90); specialty drugs to tier 4 or
5 whenever the parent has at least 5 tiers (the fixed specialty tiers of the
five-tier model, not the two highest under larger capacities) and to
`min 4 tier_count` otherwise; brand drugs to tier 2 or 3 (clamped by
`tier_count`); and the returned tier never exceeds the parent's tier count
when that count is at least 1. -/
theorem C7_assign_tier_amended (drug : Drug) (tc : ℕ) (td : TierDraws) :
    (drug.is_generic = "true" → assign_tier drug tc td = 1) ∧
      (drug.is_generic ≠ "true" → drug.is_specialty = "true" →
        (5 ≤ tc → assign_tier drug tc td ∈ ({4, 5} : Finset ℕ)) ∧
          (tc < 5 → assign_tier drug tc td = min 4 tc)) ∧
      (drug.is_generic ≠ "true" → drug.is_specialty ≠ "true" →
        drug.is_brand = "true" → 3 ≤ tc →
        assign_tier drug tc td ∈ ({2, 3} : Finset ℕ)) ∧
      (1 ≤ tc → assign_tier drug tc td ≤ tc) := by
  unfold assign_tier
  refine ⟨fun hg => by rw [if_pos hg], fun hg hs => ?_, fun hg hs hb htc => ?_,
    fun htc => ?_⟩
  · rw [if_neg hg, if_pos hs]
    constructor
    · intro h5
      rw [if_pos h5]
      split_ifs <;> simp
    · intro h5
      rw [if_neg (by omega)]
  · rw [if_neg hg, if_neg hs, if_pos hb]
    split_ifs <;> simp <;> omega
  · split_ifs <;> omega

/-- Witness for C7: the amended statement instantiated at a specialty drug on
a 5-tier formulary: the drug is not generic, is specialty, the capacity is at
least 5, and the assigned tier lands in `{4, 5}`. -/
theorem C7_witness :
    specialtyDrug.is_generic ≠ "true" ∧ specialtyDrug.is_specialty = "true" ∧
      5 ≤ 5 ∧ assign_tier specialtyDrug 5 ⟨1/2, 0⟩ ∈ ({4, 5} : Finset ℕ) :=
  ⟨by decide, by decide, by decide,
    ((C7_assign_tier_amended specialtyDrug 5 ⟨1/2, 0⟩).2.1 (by decide)
      (by decide)).1 (by decide)⟩

/-- The protected drug classes of generate_formularies_drugs.py lines 41-50. -/
def PROTECTED_CLASSES : List String :=
  ["ANTICONVULSANT", "ANTIDEPRESSANT", "CHEMOTHERAPY", "TARGETED_THERAPY",
   "IMMUNOTHERAPY", "ANTIPSYCHOTIC", "IMMUNOSUPPRESSANT", "BIOLOGIC"]

/-- Drug categories built by `load_drugs` (generate_formularies_drugs.py lines
156-179). -/
structure DrugCategories where
  generic : List Drug
  brand : List Drug
  specialty : List Drug
  protectedDrugs : List Drug

/-- Embedding of the categorization loop of `load_drugs` (lines 164-174): the
`if/elif` chain sorts each drug into at most one of generic, specialty, brand,
and independently into the protected list when its class is protected. -/
def categorize_drugs (drugs : List Drug) : DrugCategories :=
  { generic := drugs.filter (fun d => d.is_generic == "true")
    specialty := drugs.filter
      (fun d => !(d.is_generic == "true") && d.is_specialty == "true")
    brand := drugs.filter
      (fun d => !(d.is_generic == "true") && !(d.is_specialty == "true") &&
        d.is_brand == "true")
    protectedDrugs := drugs.filter (fun d => PROTECTED_CLASSES.contains d.drug_class) }

/-- Protected-class sample size, line 247 of generate_formularies_drugs.py:
`int(len(protected_drugs) * 0.92)` — Python `int()` truncates, so this is the
floor of n × 0.92. -/
def protectedSampleSize (n : ℕ) : ℕ := n * 92 / 100

/-- Modelled from the spec: the spec's formula `round(|protected_catalog| × r)`
with r = 0.92, using round-half-to-even as Python's `round` does; stated for
comparison against the source's `int()` truncation. -/
def specRoundSampleSize (n : ℕ) : ℤ := roundHalfEven ((n * 92 : ℚ) / 100)

/-- Generic-inclusion sample size, lines 253-254: rate 0.85 for ENHANCED and
STANDARD formularies, 0.70 otherwise. -/
def genericSampleSize (formulary_type : String) (n : ℕ) : ℕ :=
  if formulary_type = "ENHANCED" ∨ formulary_type = "STANDARD" then
    n * 85 / 100
  else n * 70 / 100

/-- Specialty sample size, lines 260-268. -/
def specialtySampleSize (formulary_type : String) (n : ℕ) : ℕ :=
  if formulary_type = "SPECIALTY" then n * 80 / 100
  else if formulary_type = "ENHANCED" then n * 60 / 100
  else if formulary_type = "STANDARD" then n * 40 / 100
  else n * 20 / 100

/-- Target drug-count ranges, lines 32-38, with the `.get` default
`(2000, 3000)` of line 239. -/
def TARGET_DRUGS_PER_FORMULARY (t : String) : ℕ × ℕ :=
  if t = "SPECIALTY" then (500, 1500)
  else if t = "BASIC" then (1500, 2000)
  else if t = "STANDARD" then (1800, 2200)
  else if t = "ENHANCED" then (2000, 2500)
  else if t = "MAIL_ORDER" then (1800, 2200)
  else (2000, 3000)

/-- Random draws consumed by `select_drugs_for_formulary`: the
`random.randint(min_drugs, max_drugs)` target and one `random.sample`
oracle per rule.  Each sample function stands for the uniform
without-replacement draw; theorems hypothesize the properties `random.sample`
guarantees (output is a subset of the population, has the requested length,
and repeats no element). -/
structure SelectDraws where
  targetDraw : ℕ
  sampleProtected : List Drug → ℕ → List Drug
  sampleGeneric : List Drug → ℕ → List Drug
  sampleSpecialty : List Drug → ℕ → List Drug
  sampleBrand : List Drug → ℕ → List Drug

/-- The set of ndc codes of a list of drugs (`selected_drugs.update(drug['ndc_code'] ...)`). -/
def ndcFinset (l : List Drug) : Finset String := (l.map Drug.ndc_code).toFinset

/-- The sample size requested from the protected catalog at line 248:
`min(protected_sample_size, len(protected_drugs))`. -/
def protectedSampleArgK (cats : DrugCategories) : ℕ :=
  min (protectedSampleSize cats.protectedDrugs.length) cats.protectedDrugs.length

/-- RULE 1 (lines 244-249): for Medicare market segments, sample 92% of the
protected catalog; otherwise contribute nothing. -/
def rule1_protected (fm : Formulary) (cats : DrugCategories)
    (sd : SelectDraws) : Finset String :=
  if fm.market_segment = "MEDICARE_PART_D" ∨
      fm.market_segment = "MEDICARE_ADVANTAGE" then
    ndcFinset (sd.sampleProtected cats.protectedDrugs (protectedSampleArgK cats))
  else ∅

/-- RULE 2 (lines 251-256): sample generics at the type-dependent rate. -/
def rule2_generic (fm : Formulary) (cats : DrugCategories)
    (sd : SelectDraws) : Finset String :=
  ndcFinset (sd.sampleGeneric cats.generic
    (min (genericSampleSize fm.formulary_type cats.generic.length)
      cats.generic.length))

/-- RULE 3 (lines 258-271): sample specialty drugs at the type-dependent rate. -/
def rule3_specialty (fm : Formulary) (cats : DrugCategories)
    (sd : SelectDraws) : Finset String :=
  ndcFinset (sd.sampleSpecialty cats.specialty
    (min (specialtySampleSize fm.formulary_type cats.specialty.length)
      cats.specialty.length))

/-- Accumulated selection after RULE 1. -/
def selectedAfterRule1 (fm : Formulary) (cats : DrugCategories)
    (sd : SelectDraws) : Finset String :=
  rule1_protected fm cats sd

/-- Accumulated selection after RULE 2 (`selected_drugs.update(...)`). -/
def selectedAfterRule2 (fm : Formulary) (cats : DrugCategories)
    (sd : SelectDraws) : Finset String :=
  selectedAfterRule1 fm cats sd ∪ rule2_generic fm cats sd

/-- Accumulated selection after RULE 3. -/
def selectedAfterRule3 (fm : Formulary) (cats : DrugCategories)
    (sd : SelectDraws) : Finset String :=
  selectedAfterRule2 fm cats sd ∪ rule3_specialty fm cats sd

/-- RULE 4 (lines 273-281): brands fill `target_count - len(selected_drugs)`
remaining slots, only when that signed difference is positive, drawing from
the brands not already selected. -/
def rule4_brand (fm : Formulary) (cats : DrugCategories)
    (sd : SelectDraws) : Finset String :=
  let s3 := selectedAfterRule3 fm cats sd
  let remaining : ℤ := (sd.targetDraw : ℤ) - (s3.card : ℤ)
  if 0 < remaining then
    let available := cats.brand.filter (fun d => !(decide (d.ndc_code ∈ s3)))
    ndcFinset (sd.sampleBrand available (min remaining.toNat available.length))
  else ∅

/-- The full accumulated selected set after all four rules. -/
def selectedAll (fm : Formulary) (cats : DrugCategories)
    (sd : SelectDraws) : Finset String :=
  selectedAfterRule3 fm cats sd ∪ rule4_brand fm cats sd

/-- Embedding of `select_drugs_for_formulary` (generate_formularies_drugs.py
lines 232-286), as the set of ndc codes it returns: the accumulated set
restricted, by the comprehension on line 286, to codes resolvable in the
`drug_lookup` built from `all_drugs` (Python set iteration gives the returned
list no specified order, so the result is modelled as a `Finset`). -/
def select_drugs_for_formulary (fm : Formulary) (all_drugs : List Drug)
    (cats : DrugCategories) (sd : SelectDraws) : Finset String :=
  (selectedAll fm cats sd).filter
    (fun ndc => ndc ∈ all_drugs.map Drug.ndc_code)

/-- helper: membership in the ndc-code set of a drug list. -/
theorem mem_ndcFinset {x : String} {l : List Drug} :
    x ∈ ndcFinset l ↔ ∃ d ∈ l, d.ndc_code = x := by
  simp [ndcFinset]

/-- helper: the truncated 92% size never exceeds the catalog size. -/
theorem protectedSampleSize_le (n : ℕ) : protectedSampleSize n ≤ n := by
  unfold protectedSampleSize
  calc n * 92 / 100 ≤ n * 100 / 100 :=
        Nat.div_le_div_right (Nat.mul_le_mul_left n (by norm_num))
    _ = n := Nat.mul_div_cancel n (by norm_num)

/-- helper: every ndc code of a sampled sublist resolves in the lookup built
from `all_drugs`. -/
theorem ndcFinset_subset_map {l : List Drug} {all_drugs : List Drug}
    (h : l ⊆ all_drugs) {x : String} (hx : x ∈ ndcFinset l) :
    x ∈ all_drugs.map Drug.ndc_code := by
  rcases mem_ndcFinset.mp hx with ⟨d, hd, hdx⟩
  exact List.mem_map.mpr ⟨d, h hd, hdx⟩

/-- A protected-class drug with the given ndc code, used to build concrete
catalogs. -/
def protoDrug (ndc : String) : Drug :=
  { ndc_code := ndc, is_generic := "false", is_specialty := "false",
    is_brand := "false", drug_class := "CHEMOTHERAPY", dosage_form := "TABLET" }

/-- A 13-drug protected catalog. -/
def drugs13 : List Drug :=
  [protoDrug "d01", protoDrug "d02", protoDrug "d03", protoDrug "d04",
   protoDrug "d05", protoDrug "d06", protoDrug "d07", protoDrug "d08",
   protoDrug "d09", protoDrug "d10", protoDrug "d11", protoDrug "d12",
   protoDrug "d13"]

/-- A 10-drug protected catalog. -/
def drugs10 : List Drug :=
  [protoDrug "d01", protoDrug "d02", protoDrug "d03", protoDrug "d04",
   protoDrug "d05", protoDrug "d06", protoDrug "d07", protoDrug "d08",
   protoDrug "d09", protoDrug "d10"]

/-- A Medicare Part D formulary, so RULE 1 applies. -/
def fmMedicare : Formulary :=
  { formulary_code := "F001", formulary_type := "STANDARD",
    market_segment := "MEDICARE_PART_D", tier_count := 5 }

/-- A deterministic instantiation of the sampling oracles: each
`random.sample(population, k)` is replaced by taking the first `k` elements,
which satisfies every property `random.sample` guarantees. -/
def takeDraws : SelectDraws :=
  { targetDraw := 0,
    sampleProtected := fun l k => l.take k,
    sampleGeneric := fun l k => l.take k,
    sampleSpecialty := fun l k => l.take k,
    sampleBrand := fun l k => l.take k }

/-- Counterexample to C3: on a 13-drug protected catalog the code includes
`int(13 * 0.92) = 11` protected drugs (truncation), while the spec's formula
`round(13 * 0.92) = round(11.96) = 12` demands 12; the two disagree. -/
theorem C3_counterexample :
    (rule1_protected fmMedicare (categorize_drugs drugs13) takeDraws).card = 11 ∧
      specRoundSampleSize 13 = 12 ∧ (11 : ℤ) ≠ 12 := by
  refine ⟨by decide, ?_, by decide⟩
  norm_num [specRoundSampleSize, roundHalfEven, qfloor]

/-- Claim C3 (amended): for every formulary to which the protected-class rule
is applied (Medicare market segments), the protected subset selected by RULE 1
has exactly `⌊|protected catalog| × 0.92⌋` elements — the floor (Python
`int()` truncation), not `round` — which for a 10-drug protected catalog is
exactly 9; and that protected subset is contained in the full selected-children
result.  The hypotheses are the guarantees of `random.sample`: the sample is
drawn without replacement from the population with the requested size. -/
theorem C3_protected_subset_size (fm : Formulary) (all_drugs : List Drug)
    (cats : DrugCategories) (sd : SelectDraws)
    (hseg : fm.market_segment = "MEDICARE_PART_D" ∨
      fm.market_segment = "MEDICARE_ADVANTAGE")
    (hsub : sd.sampleProtected cats.protectedDrugs (protectedSampleArgK cats) ⊆
      cats.protectedDrugs)
    (hlen : (sd.sampleProtected cats.protectedDrugs
      (protectedSampleArgK cats)).length = protectedSampleArgK cats)
    (hnodup : ((sd.sampleProtected cats.protectedDrugs
      (protectedSampleArgK cats)).map Drug.ndc_code).Nodup)
    (hPall : cats.protectedDrugs ⊆ all_drugs) :
    (rule1_protected fm cats sd).card =
        protectedSampleSize cats.protectedDrugs.length ∧
      rule1_protected fm cats sd ⊆
        select_drugs_for_formulary fm all_drugs cats sd ∧
      protectedSampleSize 10 = 9 := by
  have hk : protectedSampleArgK cats =
      protectedSampleSize cats.protectedDrugs.length :=
    Nat.min_eq_left (protectedSampleSize_le _)
  refine ⟨?_, ?_, by norm_num [protectedSampleSize]⟩
  · rw [rule1_protected, if_pos hseg, ndcFinset,
      List.toFinset_card_of_nodup hnodup, List.length_map, hlen, hk]
  · intro x hx
    have hx1 := hx
    rw [rule1_protected, if_pos hseg] at hx1
    rcases mem_ndcFinset.mp hx1 with ⟨d, hd, hdx⟩
    rw [select_drugs_for_formulary, Finset.mem_filter]
    constructor
    · simp only [selectedAll, selectedAfterRule3, selectedAfterRule2,
        selectedAfterRule1, Finset.mem_union]
      exact Or.inl (Or.inl (Or.inl hx))
    · exact List.mem_map.mpr ⟨d, hPall (hsub hd), hdx⟩

/-- Witness for C3: the amended statement instantiated at a Medicare formulary
over the concrete 10-drug protected catalog with the take-first sampler: the
protected subset has exactly `⌊10 × 0.92⌋ = 9` elements and is contained in
the selection result. -/
theorem C3_witness :
    (rule1_protected fmMedicare (categorize_drugs drugs10) takeDraws).card =
        protectedSampleSize (categorize_drugs drugs10).protectedDrugs.length ∧
      rule1_protected fmMedicare (categorize_drugs drugs10) takeDraws ⊆
        select_drugs_for_formulary fmMedicare drugs10
          (categorize_drugs drugs10) takeDraws ∧
      protectedSampleSize 10 = 9 :=
  C3_protected_subset_size fmMedicare drugs10 (categorize_drugs drugs10)
    takeDraws (by decide) (List.take_subset _ _) (by decide) (by decide)
    (List.filter_subset' _)

/-- Claim C4: the selected set only grows as the four rules are applied in
priority order, and the returned selection is not truncated to the target
drug count: it equals the full accumulated union (restricted only to lookup
resolution, which removes nothing when the category catalogs come from
`all_drugs`), so every drug chosen by the protected-class, generic and
specialty rules appears in the result. -/
theorem C4_monotone_growth_no_truncation (fm : Formulary)
    (all_drugs : List Drug) (cats : DrugCategories) (sd : SelectDraws)
    (hP : ∀ l k, sd.sampleProtected l k ⊆ l)
    (hG : ∀ l k, sd.sampleGeneric l k ⊆ l)
    (hS : ∀ l k, sd.sampleSpecialty l k ⊆ l)
    (hB : ∀ l k, sd.sampleBrand l k ⊆ l)
    (hPall : cats.protectedDrugs ⊆ all_drugs)
    (hGall : cats.generic ⊆ all_drugs)
    (hSall : cats.specialty ⊆ all_drugs)
    (hBall : cats.brand ⊆ all_drugs) :
    selectedAfterRule1 fm cats sd ⊆ selectedAfterRule2 fm cats sd ∧
      selectedAfterRule2 fm cats sd ⊆ selectedAfterRule3 fm cats sd ∧
      selectedAfterRule3 fm cats sd ⊆ selectedAll fm cats sd ∧
      select_drugs_for_formulary fm all_drugs cats sd =
        selectedAll fm cats sd := by
  refine ⟨Finset.subset_union_left, Finset.subset_union_left,
    Finset.subset_union_left, ?_⟩
  rw [select_drugs_for_formulary]
  apply Finset.filter_true_of_mem
  intro x hx
  simp only [selectedAll, selectedAfterRule3, selectedAfterRule2,
    selectedAfterRule1, Finset.mem_union] at hx
  rcases hx with ((h1 | h2) | h3) | h4
  · rw [rule1_protected] at h1
    split_ifs at h1 with hseg
    · exact ndcFinset_subset_map (fun a ha => hPall (hP _ _ ha)) h1
    · exact absurd h1 (Finset.not_mem_empty x)
  · exact ndcFinset_subset_map (fun a ha => hGall (hG _ _ ha)) h2
  · exact ndcFinset_subset_map (fun a ha => hSall (hS _ _ ha)) h3
  · simp only [rule4_brand] at h4
    split_ifs at h4 with hrem
    · exact ndcFinset_subset_map
        (fun a ha => hBall (List.filter_subset' _ (hB _ _ ha))) h4
    · exact absurd h4 (Finset.not_mem_empty x)

/-- Witness for C4: the monotone-growth and no-truncation statement
instantiated at the Medicare formulary over the 10-drug catalog with the
take-first sampler. -/
theorem C4_witness :
    selectedAfterRule1 fmMedicare (categorize_drugs drugs10) takeDraws ⊆
        selectedAfterRule2 fmMedicare (categorize_drugs drugs10) takeDraws ∧
      selectedAfterRule2 fmMedicare (categorize_drugs drugs10) takeDraws ⊆
        selectedAfterRule3 fmMedicare (categorize_drugs drugs10) takeDraws ∧
      selectedAfterRule3 fmMedicare (categorize_drugs drugs10) takeDraws ⊆
        selectedAll fmMedicare (categorize_drugs drugs10) takeDraws ∧
      select_drugs_for_formulary fmMedicare drugs10
          (categorize_drugs drugs10) takeDraws =
        selectedAll fmMedicare (categorize_drugs drugs10) takeDraws :=
  C4_monotone_growth_no_truncation fmMedicare drugs10
    (categorize_drugs drugs10) takeDraws
    (fun _ _ => List.take_subset _ _) (fun _ _ => List.take_subset _ _)
    (fun _ _ => List.take_subset _ _) (fun _ _ => List.take_subset _ _)
    (List.filter_subset' _) (List.filter_subset' _) (List.filter_subset' _)
    (List.filter_subset' _)

/-- Utilization-management probability triple (prior auth, step therapy,
quantity limit) by tier: the `UTILIZATION_MANAGEMENT` table of
generate_formularies_drugs.py lines 80-106, with the `.get` default of
`UTILIZATION_MANAGEMENT[3]` at line 210. -/
def UM_PROBS (tier : ℕ) : ℚ × ℚ × ℚ :=
  if tier = 1 then (2/100, 1/100, 5/100)
  else if tier = 2 then (10/100, 8/100, 15/100)
  else if tier = 3 then (25/100, 20/100, 30/100)
  else if tier = 4 then (60/100, 15/100, 50/100)
  else if tier = 5 then (90/100, 25/100, 70/100)
  else (25/100, 20/100, 30/100)

/-- Quantity-limit choices by dosage form (lines 109-120), with the `.get`
default `[30]` of line 226. -/
def QUANTITY_LIMITS (dosage_form : String) : List ℕ :=
  if dosage_form = "TABLET" then [30, 60, 90]
  else if dosage_form = "CAPSULE" then [30, 60, 90]
  else if dosage_form = "SOLUTION" then [30, 60]
  else if dosage_form = "INJECTION" then [30, 90]
  else if dosage_form = "CREAM" then [30, 60]
  else if dosage_form = "OINTMENT" then [30, 60]
  else if dosage_form = "SUSPENSION" then [30]
  else if dosage_form = "PATCH" then [30]
  else if dosage_form = "INHALER" then [30, 90]
  else if dosage_form = "SUPPOSITORY" then [30]
  else [30]

/-- Days-supply choices, line 123. -/
def DAYS_SUPPLY_LIMITS : List ℕ := [30, 60, 90]

/-- Draws consumed by `apply_utilization_management` (lines 208-229): three
`random.random()` gate draws and the indices of the two `random.choice`
calls on the quantity-limit branch. -/
structure UMDraws where
  uPriorAuth : ℚ
  uStepTherapy : ℚ
  uQuantityLimit : ℚ
  iQuantity : ℕ
  iDaysSupply : ℕ
  deriving DecidableEq

/-- Embedding of `apply_utilization_management(tier, drug)` (lines 208-229):
returns (requires_prior_auth, requires_step_therapy, quantity_limit,
days_supply_limit); the two limits are `none` unless the quantity-limit gate
fires. -/
def apply_utilization_management (tier : ℕ) (drug : Drug) (u : UMDraws) :
    Bool × Bool × Option ℕ × Option ℕ :=
  let probs := UM_PROBS tier
  let requires_prior_auth := decide (u.uPriorAuth < probs.1)
  let requires_step_therapy := decide (u.uStepTherapy < probs.2.1)
  let has_quantity_limit := decide (u.uQuantityLimit < probs.2.2)
  if has_quantity_limit then
    let ql := QUANTITY_LIMITS drug.dosage_form
    (requires_prior_auth, requires_step_therapy,
      some (ql.getD (u.iQuantity % ql.length) 30),
      some (DAYS_SUPPLY_LIMITS.getD (u.iDaysSupply % DAYS_SUPPLY_LIMITS.length) 30))
  else
    (requires_prior_auth, requires_step_therapy, none, none)

/-- Formulary status of the record (lines 300-306). -/
def recordStatus (tier : ℕ) (uStatus : ℚ) : String :=
  if tier ≤ 2 then "PREFERRED"
  else if tier = 3 then
    (if uStatus < 60/100 then "NON_PREFERRED" else "PREFERRED")
  else "SPECIALTY"

/-- Serialization of Python booleans: `str(b).lower()`. -/
def boolStr (b : Bool) : String := if b then "true" else "false"

/-- The output record of `generate_formulary_drug_record` (lines 289-320).
The two optional limits serialize as the number or the empty string; they are
kept as `Option ℕ` here. -/
structure FDRecord where
  formulary_drug_id : String
  formulary_code : String
  ndc_code : String
  tier : ℕ
  status : String
  requires_prior_auth : String
  requires_step_therapy : String
  quantity_limit : Option ℕ
  days_supply_limit : Option ℕ
  deriving DecidableEq

/-- Draws from the seeded `random` generator consumed by one record. -/
structure RecordDraws where
  tierDraws : TierDraws
  umDraws : UMDraws
  uStatus : ℚ
  deriving DecidableEq

/-- Embedding of `generate_formulary_drug_record(formulary, drug, sequence)`
(generate_formularies_drugs.py lines 289-320).  `uuidValue` is the value of
`str(uuid.uuid4())` (line 309): uuid4 reads OS entropy (`os.urandom`), not the
seeded `random` generator, so it is a separate input here.  The unused
`sequence` parameter of the source is omitted (the source body never reads
it). -/
def generate_formulary_drug_record (fm : Formulary) (drug : Drug)
    (rd : RecordDraws) (uuidValue : String) : FDRecord :=
  let tier := assign_tier drug fm.tier_count rd.tierDraws
  let um := apply_utilization_management tier drug rd.umDraws
  { formulary_drug_id := uuidValue
    formulary_code := fm.formulary_code
    ndc_code := drug.ndc_code
    tier := tier
    status := recordStatus tier rd.uStatus
    requires_prior_auth := boolStr um.1
    requires_step_therapy := boolStr um.2.1
    quantity_limit := um.2.2.1
    days_supply_limit := um.2.2.2 }

/-- Concrete record draws used in evaluations. -/
def rdTest : RecordDraws :=
  { tierDraws := ⟨1/2, 1/2⟩,
    umDraws := ⟨1/2, 1/2, 1/2, 0, 0⟩,
    uStatus := 1/2 }

/-- Counterexample to C5: two records generated from identical seeded draws
and identical inputs but different uuid4 values (uuid4 reads OS entropy, which
an identical `random` seed does not fix) are not identical — so two runs with
the same seed and the same input files do not produce byte-identical outputs. -/
theorem C5_counterexample :
    generate_formulary_drug_record fmMedicare specialtyDrug rdTest "u1" ≠
      generate_formulary_drug_record fmMedicare specialtyDrug rdTest "u2" := by
  intro h
  have h2 := congrArg FDRecord.formulary_drug_id h
  simp only [generate_formulary_drug_record] at h2
  exact absurd h2 (by decide)

/-- Claim C5 (amended): given identical inputs and identical values for every
draw from the seeded `random` generator, two generated formulary-drug records
agree on every field except `formulary_drug_id`, which is exactly the uuid4
value — an entropy source the seed does not govern.  Byte-identity of output
file sets therefore holds for all fields except the uuid-bearing identifier
column (and wall-clock timestamp columns in generators that emit them). -/
theorem C5_reproducible_except_uuid (fm : Formulary) (drug : Drug)
    (rd : RecordDraws) (u1 u2 : String) :
    (generate_formulary_drug_record fm drug rd u1).formulary_drug_id = u1 ∧
      (generate_formulary_drug_record fm drug rd u2).formulary_drug_id = u2 ∧
      (generate_formulary_drug_record fm drug rd u1).formulary_code =
        (generate_formulary_drug_record fm drug rd u2).formulary_code ∧
      (generate_formulary_drug_record fm drug rd u1).ndc_code =
        (generate_formulary_drug_record fm drug rd u2).ndc_code ∧
      (generate_formulary_drug_record fm drug rd u1).tier =
        (generate_formulary_drug_record fm drug rd u2).tier ∧
      (generate_formulary_drug_record fm drug rd u1).status =
        (generate_formulary_drug_record fm drug rd u2).status ∧
      (generate_formulary_drug_record fm drug rd u1).requires_prior_auth =
        (generate_formulary_drug_record fm drug rd u2).requires_prior_auth ∧
      (generate_formulary_drug_record fm drug rd u1).requires_step_therapy =
        (generate_formulary_drug_record fm drug rd u2).requires_step_therapy ∧
      (generate_formulary_drug_record fm drug rd u1).quantity_limit =
        (generate_formulary_drug_record fm drug rd u2).quantity_limit ∧
      (generate_formulary_drug_record fm drug rd u1).days_supply_limit =
        (generate_formulary_drug_record fm drug rd u2).days_supply_limit :=
  ⟨rfl, rfl, rfl, rfl, rfl, rfl, rfl, rfl, rfl, rfl⟩

/-- Target shard size (generate_formularies_drugs.py line 26). -/
def MAX_FILE_SIZE_MB : ℕ := 30

/-- Estimated bytes per record (line 27). -/
def ESTIMATED_BYTES_PER_RECORD : ℕ := 200

/-- Records per shard file, line 28:
`int((MAX_FILE_SIZE_MB * 1024 * 1024) / ESTIMATED_BYTES_PER_RECORD)`. -/
def RECORDS_PER_FILE : ℕ :=
  MAX_FILE_SIZE_MB * 1024 * 1024 / ESTIMATED_BYTES_PER_RECORD

theorem RECORDS_PER_FILE_eq : RECORDS_PER_FILE = 157286 := by
  norm_num [RECORDS_PER_FILE, MAX_FILE_SIZE_MB, ESTIMATED_BYTES_PER_RECORD]

/-- Number of shard files, line 331:
`(total_records + RECORDS_PER_FILE - 1) // RECORDS_PER_FILE`. -/
def numFiles (total_records : ℕ) : ℕ :=
  (total_records + RECORDS_PER_FILE - 1) / RECORDS_PER_FILE

/-- The record batches sliced at lines 339-342: file `k+1` (1-based in the
source, 0-based here) holds `all_records[start : min(start + RECORDS_PER_FILE,
total)]` with `start = k * RECORDS_PER_FILE`. -/
def fileBatches (records : List FDRecord) : List (List FDRecord) :=
  (List.range (numFiles records.length)).map fun k =>
    (records.drop (k * RECORDS_PER_FILE)).take RECORDS_PER_FILE

/-- A line of a shard CSV file: the header or one record row. -/
inductive CsvLine where
  | header
  | row (r : FDRecord)
  deriving DecidableEq

/-- One shard file as written at lines 348-351: `writer.writeheader()` then
`writer.writerows(batch)`. -/
def shardFile (batch : List FDRecord) : List CsvLine :=
  CsvLine.header :: batch.map CsvLine.row

/-- Embedding of `write_records_to_multiple_files(all_records, output_dir)`
(generate_formularies_drugs.py lines 323-357): the sequence of shard files,
in filename order (`..._01.csv`, `..._02.csv`, ...). -/
def write_records_to_multiple_files (records : List FDRecord) :
    List (List CsvLine) :=
  (fileBatches records).map shardFile

/-- Projection dropping header lines. -/
def rowOf : CsvLine → Option FDRecord
  | CsvLine.header => none
  | CsvLine.row r => some r

/-- Concatenating shard files in filename order and removing header rows. -/
def concatDropHeaders (files : List (List CsvLine)) : List FDRecord :=
  files.flatten.filterMap rowOf

/-- Whether a CSV line is the header. -/
def isHeader : CsvLine → Bool
  | CsvLine.header => true
  | CsvLine.row _ => false

/-- helper: joining the `range`-indexed slices of width `R` recovers the first
`k * R` elements. -/
theorem range_chunks_join (R : ℕ) (k : ℕ) (l : List FDRecord) :
    ((List.range k).map fun i => (l.drop (i * R)).take R).flatten =
      l.take (k * R) := by
  induction k with
  | zero => simp
  | succ n ih =>
      rw [List.range_succ, List.map_append, List.flatten_append, ih]
      simp only [List.map_cons, List.map_nil, List.flatten_cons, List.flatten_nil,
        List.append_nil]
      rw [Nat.succ_mul, List.take_add]

/-- helper: the batches partition the record list exactly. -/
theorem fileBatches_join (records : List FDRecord) :
    (fileBatches records).flatten = records := by
  rw [fileBatches, range_chunks_join]
  apply List.take_of_length_le
  rw [numFiles, RECORDS_PER_FILE_eq]
  omega

/-- helper: the record rows of one shard file. -/
theorem shardFile_rows (batch : List FDRecord) :
    (shardFile batch).filterMap rowOf = batch := by
  simp [shardFile, rowOf, List.filterMap_cons, List.filterMap_map,
    Function.comp_def]

/-- helper: round trip of the writer at the record level. -/
theorem writer_round_trip_aux (records : List FDRecord) :
    concatDropHeaders (write_records_to_multiple_files records) = records := by
  rw [concatDropHeaders, write_records_to_multiple_files]
  have h : ((fileBatches records).map shardFile).flatten.filterMap rowOf =
      ((fileBatches records).map (fun b => (shardFile b).filterMap rowOf)).flatten := by
    induction fileBatches records with
    | nil => simp
    | cons b bs ih =>
        simp only [List.map_cons, List.flatten_cons, List.filterMap_append, ih]
  rw [h]
  have h2 : (fileBatches records).map (fun b => (shardFile b).filterMap rowOf) =
      fileBatches records := by
    conv_rhs => rw [show fileBatches records = (fileBatches records).map id from
      (List.map_id (fileBatches records)).symm]
    apply List.map_congr_left
    intro b _
    exact shardFile_rows b
  rw [h2, fileBatches_join]

/-- Claim C6: concatenating the shard files produced by the partitioned writer
in filename order and removing header rows yields exactly the original record
sequence (no row lost, duplicated or reordered; each shard a contiguous
non-overlapping slice), and every shard file contains exactly one header
line. -/
theorem C6_shard_round_trip (records : List FDRecord) :
    concatDropHeaders (write_records_to_multiple_files records) = records ∧
      ∀ f ∈ write_records_to_multiple_files records, f.countP isHeader = 1 := by
  refine ⟨writer_round_trip_aux records, ?_⟩
  intro f hf
  rcases List.mem_map.mp hf with ⟨b, _, rfl⟩
  simp only [shardFile, List.countP_cons, isHeader, List.countP_map]
  have : List.countP (isHeader ∘ CsvLine.row) b = 0 := by
    apply List.countP_eq_zero.mpr
    intro x _
    simp [isHeader, Function.comp]
  simp [this, isHeader]

/-- A concrete record used in writer evaluations. -/
def recW : FDRecord :=
  { formulary_drug_id := "u1", formulary_code := "F001", ndc_code := "d01",
    tier := 1, status := "PREFERRED", requires_prior_auth := "false",
    requires_step_therapy := "false", quantity_limit := none,
    days_supply_limit := none }

/-- Witness for C6: the round trip and the one-header-per-shard property
instantiated at a one-record stream and its single shard file. -/
theorem C6_witness :
    concatDropHeaders (write_records_to_multiple_files [recW]) = [recW] ∧
      shardFile [recW] ∈ write_records_to_multiple_files [recW] ∧
      (shardFile [recW]).countP isHeader = 1 :=
  ⟨(C6_shard_round_trip [recW]).1, by decide,
    (C6_shard_round_trip [recW]).2 (shardFile [recW]) (by decide)⟩

/-- Upper bound on generated relationships
(generate_formularies_drugs.py line 29). -/
def MAX_TOTAL_RELATIONSHIPS : ℕ := 10000000

/-- The drugs of `all_drugs` whose ndc code was selected for the formulary:
the `for drug in selected_drugs` iteration of the driver loop (line 433),
with the drugs listed in catalog order (Python iterates the selected set in
unspecified order; row content does not depend on this order). -/
def selectedDrugList (fm : Formulary) (all_drugs : List Drug)
    (cats : DrugCategories) (sd : SelectDraws) : List Drug :=
  all_drugs.filter
    (fun d => decide (d.ndc_code ∈ select_drugs_for_formulary fm all_drugs cats sd))

/-- The random sources the driver consumes: per-formulary selection draws,
per-record draws from the seeded generator, and per-record uuid4 values from
OS entropy. -/
structure DriverOracle where
  selectDraws : ℕ → SelectDraws
  recordDraws : ℕ → RecordDraws
  uuidValues : ℕ → String

/-- The accumulated `all_records` list built by the driver loop of
`generate_all_formulary_drugs` (lines 420-442): every generated record is
appended to one in-memory list, truncated at `MAX_TOTAL_RELATIONSHIPS` by the
break checks of lines 425 and 434, before any file is written. -/
def allRecordsOf (formularies : List Formulary) (all_drugs : List Drug)
    (oracle : DriverOracle) : List FDRecord :=
  let cats := categorize_drugs all_drugs
  let pairs := (formularies.enum.map (fun fi =>
    (selectedDrugList fi.2 all_drugs cats (oracle.selectDraws fi.1)).map
      (fun d => (fi.2, d)))).flatten
  (pairs.take MAX_TOTAL_RELATIONSHIPS).enum.map
    (fun ir => generate_formulary_drug_record ir.2.1 ir.2.2
      (oracle.recordDraws ir.1) (oracle.uuidValues ir.1))

/-- Whether `generate_statistics(records, formularies)` (lines 360-402)
completes: it divides by `len(formularies)` at line 370 and by `len(records)`
at line 400, so it raises `ZeroDivisionError` exactly when either list is
empty. -/
def generate_statistics_ok (records : List FDRecord)
    (formularies : List Formulary) : Bool :=
  !formularies.isEmpty && !records.isEmpty

/-- The reference files `generate_all_formulary_drugs` loads before any
generation work: `none` models a missing file (Python `open` raises
`FileNotFoundError`, caught only by the top-level handler). -/
structure FDFileSystem where
  formularyFile : Option (List Formulary)
  drugFile : Option (List Drug)

/-- Embedding of `generate_all_formulary_drugs()` (lines 405-466): returns
the list of output shard files actually created, and whether the run
completed without error.  Loading failures abort before the generation loop;
the statistics pass runs after writing and can still fail (on empty input it
divides by zero), but by then zero shard files exist. -/
def generate_all_formulary_drugs (fs : FDFileSystem)
    (oracle : DriverOracle) : List (List CsvLine) × Bool :=
  match fs.formularyFile, fs.drugFile with
  | some formularies, some all_drugs =>
      let records := allRecordsOf formularies all_drugs oracle
      let files := write_records_to_multiple_files records
      (files, generate_statistics_ok records formularies)
  | _, _ => ([], false)

/-- A claims row as extracted by `ClaimLineGenerator.load_reference_data`
(generate_claim_lines.py lines 85-99). -/
structure ClaimRow where
  claim_number : String
  date_of_service : String
  ndc : String
  quantity_dispensed : String
  days_supply : String
  prescription_number : String
  refill_number : String
  prescriber_npi : String
  ingredient_cost_submitted : String
  dispensing_fee_submitted : String
  patient_pay_amount : String
  plan_pay_amount : String

/-- A drug row as extracted at lines 108-114 of generate_claim_lines.py. -/
structure DrugRow where
  ndc_code : String
  drug_name : String
  generic_name : String
  is_generic : String

/-- The reference files `ClaimLineGenerator.load_reference_data` consumes:
the claim shard files matching the prefix (in sorted filename order) and the
optional drugs file (read only if it exists, line 105). -/
structure ClaimLinesFS where
  claimFiles : List (List ClaimRow)
  drugFile : Option (List DrugRow)

/-- Embedding of `ClaimLineGenerator.load_reference_data` (generate_claim_lines.py
lines 72-120): claims are the concatenation of all matching claim files;
drugs stay empty when the drug file is absent; `sys.exit(1)` — modelled as
`none` — fires when either list is empty (lines 118-120), before any output
file is opened. -/
def load_reference_data (fs : ClaimLinesFS) :
    Option (List ClaimRow × List DrugRow) :=
  let claims := fs.claimFiles.flatten
  let drugs := match fs.drugFile with
    | some rows => rows
    | none => []
  if claims.isEmpty || drugs.isEmpty then none else some (claims, drugs)

/-- The claim-line generator run: `__init__` calls `load_reference_data`
before `generate_all_claim_lines` opens any output file, so an aborted load
yields no output files.  `gen` stands for the generation phase producing the
output file list. -/
def runClaimLineGenerator (fs : ClaimLinesFS)
    (gen : List ClaimRow → List DrugRow → List (List CsvLine)) :
    List (List CsvLine) × Bool :=
  match load_reference_data fs with
  | none => ([], false)
  | some (claims, drugs) => (gen claims drugs, true)

/-- helper: with no formularies the driver loop generates nothing. -/
theorem allRecordsOf_nil_formularies (ad : List Drug) (o : DriverOracle) :
    allRecordsOf [] ad o = [] := by
  simp [allRecordsOf]

/-- helper: with an empty drug catalog every selection resolves to nothing,
so the driver loop generates nothing. -/
theorem allRecordsOf_nil_drugs (fms : List Formulary) (o : DriverOracle) :
    allRecordsOf fms [] o = [] := by
  simp [allRecordsOf, selectedDrugList]

/-- helper: writing an empty record list creates zero shard files. -/
theorem write_records_nil : write_records_to_multiple_files [] = [] := by
  have h : numFiles 0 = 0 := by
    rw [numFiles, RECORDS_PER_FILE_eq]
  simp [write_records_to_multiple_files, fileBatches, h]

/-- Claim C8: when a required upstream reference file is missing or empty,
the run fails and no output shard file — not even a partial or empty one —
exists after the failure.  Stated for both cited code paths: the
formulary-drug driver (missing file aborts at load; empty input writes zero
files and then fails in the statistics pass) and the claim-line generator
(`load_reference_data` exits before any output file is opened). -/
theorem C8_abort_no_output (fs : FDFileSystem) (oracle : DriverOracle)
    (fs2 : ClaimLinesFS)
    (gen : List ClaimRow → List DrugRow → List (List CsvLine))
    (h : fs.formularyFile = none ∨ fs.drugFile = none ∨
      fs.formularyFile = some [] ∨ fs.drugFile = some [])
    (h2 : fs2.claimFiles.flatten = [] ∨ fs2.drugFile = none ∨
      fs2.drugFile = some []) :
    generate_all_formulary_drugs fs oracle = ([], false) ∧
      runClaimLineGenerator fs2 gen = ([], false) := by
  constructor
  · obtain ⟨ff, df⟩ := fs
    simp only at h
    rcases h with h | h | h | h
    · subst h; cases df <;> rfl
    · subst h; cases ff <;> rfl
    · subst h
      cases df with
      | none => rfl
      | some ad =>
          show (write_records_to_multiple_files (allRecordsOf [] ad oracle),
            generate_statistics_ok (allRecordsOf [] ad oracle) []) = ([], false)
          rw [allRecordsOf_nil_formularies, write_records_nil]
          rfl
    · subst h
      cases ff with
      | none => rfl
      | some fms =>
          show (write_records_to_multiple_files (allRecordsOf fms [] oracle),
            generate_statistics_ok (allRecordsOf fms [] oracle) fms) = ([], false)
          rw [allRecordsOf_nil_drugs, write_records_nil]
          simp [generate_statistics_ok]
  · obtain ⟨cf, dfile⟩ := fs2
    simp only at h2
    rcases h2 with h2 | h2 | h2
    · simp [runClaimLineGenerator, load_reference_data, h2]
    · subst h2
      simp [runClaimLineGenerator, load_reference_data]
    · subst h2
      simp [runClaimLineGenerator, load_reference_data]

/-- A deterministic driver oracle used in evaluations. -/
def oracleW : DriverOracle :=
  { selectDraws := fun _ => takeDraws, recordDraws := fun _ => rdTest,
    uuidValues := fun _ => "u1" }

/-- Witness for C8: a run with the formulary file missing and a run with no
claim reference files both fail with zero output files. -/
theorem C8_witness :
    (⟨none, some []⟩ : FDFileSystem).formularyFile = none ∧
      (⟨[], none⟩ : ClaimLinesFS).claimFiles.flatten = [] ∧
      generate_all_formulary_drugs ⟨none, some []⟩ oracleW = ([], false) ∧
      runClaimLineGenerator ⟨[], none⟩ (fun _ _ => []) = ([], false) :=
  ⟨rfl, rfl,
    (C8_abort_no_output ⟨none, some []⟩ oracleW ⟨[], none⟩ (fun _ _ => [])
      (Or.inl rfl) (Or.inl rfl)).1,
    (C8_abort_no_output ⟨none, some []⟩ oracleW ⟨[], none⟩ (fun _ _ => [])
      (Or.inl rfl) (Or.inl rfl)).2⟩

/-- A STANDARD commercial formulary with the given code. -/
def fmStd (code : String) : Formulary :=
  { formulary_code := code, formulary_type := "STANDARD",
    market_segment := "COMMERCIAL", tier_count := 4 }

/-- A generic drug with the given ndc code. -/
def genDrug (ndc : String) : Drug :=
  { ndc_code := ndc, is_generic := "true", is_specialty := "false",
    is_brand := "false", drug_class := "STATIN", dosage_form := "TABLET" }

/-- A 2-drug generic catalog. -/
def drugsG : List Drug := [genDrug "g01", genDrug "g02"]

/-- Counterexample to C9: a concrete run with two formularies and a two-drug
catalog accumulates 2 generated rows simultaneously in the `all_records`
list before the writer runs — more than the claimed bound of at most one
in-flight row. -/
theorem C9_counterexample :
    (allRecordsOf [fmStd "FA", fmStd "FB"] drugsG oracleW).length = 2 ∧
      ¬(allRecordsOf [fmStd "FA", fmStd "FB"] drugsG oracleW).length ≤ 1 := by
  have h : (allRecordsOf [fmStd "FA", fmStd "FB"] drugsG oracleW).length = 2 := by
    simp only [allRecordsOf, List.length_map, List.enum_length, List.length_take]
    decide
  exact ⟨h, by omega⟩

/-- Claim C9 (amended): the formulary-drug driver accumulates every generated
row in one in-memory list (`all_records`) and hands that entire list to the
writer in a single call: the shard files are exactly the writer applied to
the full accumulated list, and the total number of rows across all written
shards equals the length of that list — the full row stream is buffered in
memory at once, not discarded row by row. -/
theorem C9_driver_buffers_full_stream (fs : FDFileSystem)
    (oracle : DriverOracle) (formularies : List Formulary)
    (all_drugs : List Drug) (hf : fs.formularyFile = some formularies)
    (hd : fs.drugFile = some all_drugs) :
    (generate_all_formulary_drugs fs oracle).1 =
        write_records_to_multiple_files
          (allRecordsOf formularies all_drugs oracle) ∧
      ((generate_all_formulary_drugs fs oracle).1.map
          (fun f => (f.filterMap rowOf).length)).sum =
        (allRecordsOf formularies all_drugs oracle).length := by
  obtain ⟨ff, df⟩ := fs
  simp only at hf hd
  subst hf; subst hd
  refine ⟨rfl, ?_⟩
  show ((write_records_to_multiple_files
      (allRecordsOf formularies all_drugs oracle)).map
      (fun f => (f.filterMap rowOf).length)).sum =
    (allRecordsOf formularies all_drugs oracle).length
  have h1 : (write_records_to_multiple_files
        (allRecordsOf formularies all_drugs oracle)).map
        (fun f => (f.filterMap rowOf).length) =
      (fileBatches (allRecordsOf formularies all_drugs oracle)).map
        List.length := by
    rw [write_records_to_multiple_files, List.map_map]
    apply List.map_congr_left
    intro b _
    simp [Function.comp, shardFile_rows]
  rw [h1, ← List.length_flatten, fileBatches_join]

/-- Witness for C9: the buffered-stream statement instantiated at a concrete
run with one formulary and the two-drug catalog. -/
theorem C9_witness :
    (⟨some [fmStd "FA"], some drugsG⟩ : FDFileSystem).formularyFile =
        some [fmStd "FA"] ∧
      (generate_all_formulary_drugs ⟨some [fmStd "FA"], some drugsG⟩
            oracleW).1 =
        write_records_to_multiple_files
          (allRecordsOf [fmStd "FA"] drugsG oracleW) ∧
      ((generate_all_formulary_drugs ⟨some [fmStd "FA"], some drugsG⟩
              oracleW).1.map
          (fun f => (f.filterMap rowOf).length)).sum =
        (allRecordsOf [fmStd "FA"] drugsG oracleW).length :=
  ⟨rfl,
    (C9_driver_buffers_full_stream ⟨some [fmStd "FA"], some drugsG⟩ oracleW
      [fmStd "FA"] drugsG rfl rfl).1,
    (C9_driver_buffers_full_stream ⟨some [fmStd "FA"], some drugsG⟩ oracleW
      [fmStd "FA"] drugsG rfl rfl).2⟩

/-- The drug-name catalog `DRUGS` of generate_drug_interactions.py lines
15-65. -/
def DRUGS : List String :=
  ["Warfarin", "Aspirin", "Clopidogrel", "Atorvastatin",
   "Simvastatin", "Rosuvastatin", "Lisinopril", "Losartan",
   "Metoprolol", "Carvedilol", "Amlodipine", "Diltiazem",
   "Furosemide", "Hydrochlorothiazide", "Spironolactone", "Digoxin",
   "Amiodarone", "Amoxicillin", "Azithromycin", "Ciprofloxacin",
   "Levofloxacin", "Doxycycline", "Cephalexin", "Metronidazole",
   "Clarithromycin", "Trimethoprim-Sulfamethoxazole", "Sertraline", "Fluoxetine",
   "Escitalopram", "Venlafaxine", "Duloxetine", "Bupropion",
   "Mirtazapine", "Trazodone", "Alprazolam", "Lorazepam",
   "Clonazepam", "Quetiapine", "Aripiprazole", "Risperidone",
   "Lithium", "Valproic Acid", "Ibuprofen", "Naproxen",
   "Celecoxib", "Tramadol", "Oxycodone", "Hydrocodone",
   "Morphine", "Fentanyl", "Gabapentin", "Pregabalin",
   "Acetaminophen", "Metformin", "Glipizide", "Glyburide",
   "Insulin Glargine", "Insulin Lispro", "Sitagliptin", "Empagliflozin",
   "Dulaglutide", "Semaglutide", "Apixaban", "Rivaroxaban",
   "Dabigatran", "Enoxaparin", "Heparin", "Omeprazole",
   "Pantoprazole", "Esomeprazole", "Lansoprazole", "Levothyroxine",
   "Methimazole", "Propylthiouracil", "Albuterol", "Montelukast",
   "Fluticasone", "Budesonide", "Prednisone", "Tacrolimus",
   "Cyclosporine", "Mycophenolate", "Azathioprine", "Acyclovir",
   "Valacyclovir", "Oseltamivir", "Remdesivir", "Fluconazole",
   "Itraconazole", "Voriconazole", "Ketoconazole", "Phenelzine",
   "Tranylcypromine", "Selegiline", "Rasagiline", "Methotrexate",
   "Allopurinol", "Colchicine", "Sildenafil", "Tadalafil",
   "Finasteride", "Tamsulosin", "Oxybutynin", "Donepezil",
   "Memantine"]

/-- Embedding of `generate_drug_pair()` (generate_drug_interactions.py lines
188-192): `random.sample(DRUGS, 2)` draws two distinct elements, and the
function returns `tuple(sorted([drug1, drug2]))`.  The two sampled names are
the inputs here. -/
def generate_drug_pair (drug1 drug2 : String) : String × String :=
  if drug1 ≤ drug2 then (drug1, drug2) else (drug2, drug1)

/-- helper: on distinct inputs the canonical pair is strictly sorted. -/
theorem generate_drug_pair_sorted {d1 d2 : String} (h : d1 ≠ d2) :
    (generate_drug_pair d1 d2).1 < (generate_drug_pair d1 d2).2 := by
  unfold generate_drug_pair
  split_ifs with hle
  · exact lt_of_le_of_ne hle h
  · exact lt_of_le_of_ne (le_of_not_le hle) (Ne.symm h)

/-- helper: the canonical pair does not depend on the sampling order. -/
theorem generate_drug_pair_comm (d1 d2 : String) :
    generate_drug_pair d1 d2 = generate_drug_pair d2 d1 := by
  by_cases he : d1 = d2
  · subst he; rfl
  · unfold generate_drug_pair
    rcases le_total d1 d2 with h | h
    · rw [if_pos h, if_neg (fun h2 => he (le_antisymm h h2))]
    · rw [if_neg (fun h2 => he (le_antisymm h2 h)), if_pos h]

/-- Embedding of the admission check of the generation loop
(generate_drug_interactions.py lines 265-272): the state is the accumulated
record list (restricted to its drug-name pair) and the `seen_pairs` set; a
record is appended, and its pair recorded, exactly when `drug_pair not in
seen_pairs or random.random() < 0.1`. -/
def interactionStep
    (st : List (String × String) × Finset (String × String))
    (pair : String × String) (uDup : ℚ) :
    List (String × String) × Finset (String × String) :=
  if pair ∉ st.2 ∨ uDup < 1/10 then (st.1 ++ [pair], insert pair st.2)
  else st

/-- The pair stream emitted by the generation loop: each attempt supplies the
two sampled names and the duplicate-admission draw. -/
def generate_drug_interactions_pairs
    (attempts : List ((String × String) × ℚ)) : List (String × String) :=
  (attempts.foldl
    (fun st a => interactionStep st (generate_drug_pair a.1.1 a.1.2) a.2)
    ([], ∅)).1

/-- helper: the fold preserves strict sortedness of every emitted pair. -/
theorem interaction_fold_sorted (attempts : List ((String × String) × ℚ))
    (st : List (String × String) × Finset (String × String))
    (hst : ∀ p ∈ st.1, p.1 < p.2)
    (hatt : ∀ a ∈ attempts, a.1.1 ≠ a.1.2) :
    ∀ p ∈ (attempts.foldl
      (fun s a => interactionStep s (generate_drug_pair a.1.1 a.1.2) a.2)
        st).1, p.1 < p.2 := by
  induction attempts generalizing st with
  | nil => simpa using hst
  | cons a rest ih =>
      rw [List.foldl_cons]
      apply ih
      · intro q hq
        simp only [interactionStep] at hq
        split_ifs at hq with h
        · simp only at hq
          rcases List.mem_append.mp hq with h1 | h2
          · exact hst q h1
          · rw [List.mem_singleton] at h2
            subst h2
            exact generate_drug_pair_sorted (hatt a (List.mem_cons_self a rest))
        · exact hst q hq
      · intro b hb
        exact hatt b (List.mem_cons_of_mem a hb)

/-- Claim C10: the drug catalog has no duplicate names, so two distinct
sampled positions give two distinct drugs; every generated pair is strictly
sorted (`drug_1_name < drug_2_name`), and the canonical pair is independent of
sampling order, so an interacting pair can occur in only one orientation
across the whole emitted dataset; a record whose canonical pair is new is
always admitted, while a record whose pair was already seen is admitted
exactly when the duplicate draw `random.random()` is below 0.1 (probability
0.1). -/
theorem C10_canonical_pairs_and_dedup :
    DRUGS.Nodup ∧
      (∀ d1 d2 : String, d1 ≠ d2 →
        (generate_drug_pair d1 d2).1 < (generate_drug_pair d1 d2).2) ∧
      (∀ d1 d2 : String,
        generate_drug_pair d1 d2 = generate_drug_pair d2 d1) ∧
      (∀ attempts : List ((String × String) × ℚ),
        (∀ a ∈ attempts, a.1.1 ≠ a.1.2) →
        ∀ p ∈ generate_drug_interactions_pairs attempts, p.1 < p.2) ∧
      (∀ (st : List (String × String) × Finset (String × String))
        (pair : String × String) (u : ℚ),
        (pair ∉ st.2 →
          interactionStep st pair u = (st.1 ++ [pair], insert pair st.2)) ∧
        (pair ∈ st.2 →
          (u < 1/10 →
            interactionStep st pair u = (st.1 ++ [pair], insert pair st.2)) ∧
          (¬ u < 1/10 → interactionStep st pair u = st))) := by
  refine ⟨by decide, fun d1 d2 h => generate_drug_pair_sorted h,
    generate_drug_pair_comm, ?_, ?_⟩
  · intro attempts hatt
    exact interaction_fold_sorted attempts ([], ∅) (by simp) hatt
  · intro st pair u
    refine ⟨fun hn => ?_, fun hm => ⟨fun hu => ?_, fun hu => ?_⟩⟩
    · rw [interactionStep, if_pos (Or.inl hn)]
    · rw [interactionStep, if_pos (Or.inr hu)]
    · rw [interactionStep, if_neg (fun hc => hc.elim (fun hn => hn hm) hu)]

/-- Witness for C10: the pair properties and the admission rule evaluated at
the concrete drugs Warfarin and Aspirin. -/
theorem C10_witness :
    ("Warfarin" : String) ≠ "Aspirin" ∧
      (generate_drug_pair "Warfarin" "Aspirin").1 <
        (generate_drug_pair "Warfarin" "Aspirin").2 ∧
      generate_drug_pair "Warfarin" "Aspirin" =
        generate_drug_pair "Aspirin" "Warfarin" ∧
      (("Aspirin", "Warfarin") ∉ (∅ : Finset (String × String)) ∧
        interactionStep ([], ∅) ("Aspirin", "Warfarin") (1/2) =
          ([("Aspirin", "Warfarin")],
            insert ("Aspirin", "Warfarin") (∅ : Finset (String × String)))) :=
  ⟨by decide,
    (C10_canonical_pairs_and_dedup.2.1) "Warfarin" "Aspirin" (by decide),
    (C10_canonical_pairs_and_dedup.2.2.1) "Warfarin" "Aspirin",
    Finset.not_mem_empty _,
    ((C10_canonical_pairs_and_dedup.2.2.2.2) ([], ∅) ("Aspirin", "Warfarin")
      (1/2)).1 (Finset.not_mem_empty _)⟩
